import Mathlib

/-!
Verification of `time_accessibility_map.py` (cizmarf/time-accessibility-map).

The development shallowly embeds the core of the program:

* the per-box extraction loop of `Connection.load_idos` (lines 110-159),
  including which exceptions are caught (`IndexError`) and which escape
  (`AttributeError` from missing markup or from a failed `re.search`);
* the regex searches `([0-9]+) km`, `([0-9]+) hod`, `([0-9]+) min`;
* `Connection.set_distance` (lines 169-195): the precondition guard and the
  haversine great-circle distance, modelled over the reals;
* `Connections.__init__` (lines 272-286): building the collection while
  filtering destinations whose `load_idos` returned `None`;
* `Connections.get_geojson` (lines 290-366): the accessibility score
  (mean duration, optionally divided by great-circle distance), min/max
  normalization, hue encoding and the three population size tiers.

Exact rational arithmetic (`ℚ`) stands in for Python floats in the score and
normalization pipeline, and real arithmetic (`ℝ`) for the trigonometric
distance computation.  A Python exception escaping a function is modelled by
a dedicated `crash`/`none` outcome.
-/

/-- `City` (source lines 28-51): name, district, population, and a coordinate
list `[longitude, latitude]` filled in by geocoding.  A list whose length is
not 2 models an absent or ill-formed coordinate pair (the source leaves the
attribute unset until `load_coordinates` runs).  Equality in the source is
name-only; structural equality here is used only to state theorems. -/
structure City where
  name : String
  district : String
  population : Nat
  coordinates : List ℚ
deriving DecidableEq

/-- One connection box of the result document, as consumed by `load_idos`
(lines 119-147).  `strongs` is `some l` when the element chain
`connection.div.div.label.p` resolves, where `l` lists the texts of the
`strong` descendants of that `p` in document order (the first is the
duration text, the second the distance text).  `strongs = none` models a box
whose required nesting is missing, so that the chain itself raises
`AttributeError`. -/
structure Box where
  strongs : Option (List String)
deriving DecidableEq

/-- Numeric value of a digit string, as Python `int` applied to the regex
group. -/
def digitsVal (ds : List Char) : Nat :=
  ds.foldl (fun n c => n * 10 + (c.toNat - 48)) 0

/-- `re.search(r'([0-9]+) <unit>', s)` for the three patterns used by
`load_idos` (suffixes `" km"`, `" hod"`, `" min"`): the leftmost position
whose maximal digit run is followed by the literal `sfx`; returns the digit
group as a number, and `none` when there is no match (Python `re.search`
returns `None`).  Backtracking inside the `[0-9]+` group can never help
because each suffix starts with a space while a shortened group leaves a
digit next, so the maximal-run reading is exact. -/
def reSearchNum (sfx : List Char) : List Char → Option Nat
  | [] => none
  | c :: cs =>
    if c.isDigit then
      if sfx.isPrefixOf ((c :: cs).dropWhile Char.isDigit) then
        some (digitsVal ((c :: cs).takeWhile Char.isDigit))
      else reSearchNum sfx cs
    else reSearchNum sfx cs

/-- String-level wrapper for `reSearchNum`. -/
def reSearchStr (sfx s : String) : Option Nat :=
  reSearchNum sfx.toList s.toList

/-- Per-box outcome of the extraction loop body (lines 123-147).

* `crash`: an exception the `except IndexError` clause does not catch — the
  `AttributeError` raised when the `div.div.label.p` chain or the first
  `strong` is missing (`None.getText()`), or when the distance regex fails
  (`None.group(1)`) — escapes `load_idos` and aborts the whole run.
* `skip`: the `IndexError` raised by `find_all('strong')[1]` when the box
  has a single `strong`; it is caught at line 144, a warning is printed and
  neither list is touched.
* `parsed km secs`: the box appends `km` to `connections_distances` and
  `secs` to `connections_times`. -/
inductive BoxResult where
  | crash : BoxResult
  | skip : BoxResult
  | parsed : Nat → Nat → BoxResult
deriving DecidableEq

/-- Body of the per-box `try` block (lines 123-147), in source order: fetch
the duration text (first `strong`), fetch the distance text (second
`strong`, `IndexError` when absent), parse the distance (`AttributeError`
when the regex fails), then hour and minute components each defaulting to 0
when their regex does not match. -/
def processBox (b : Box) : BoxResult :=
  match b.strongs with
  | none => .crash
  | some [] => .crash
  | some (t :: rest) =>
    match rest with
    | [] => .skip
    | d :: _ =>
      match reSearchStr (" km") d with
      | none => .crash
      | some km =>
        let hours := reSearchStr (" hod") t
        let minutes := reSearchStr (" min") t
        .parsed km (hours.getD 0 * 60 * 60 + minutes.getD 0 * 60)

/-- Outcome of the extraction part of `load_idos` (lines 110-164).
`crash`: an uncaught exception escapes; `failed`: the function returns
`None` (no boxes matched, or the integrity check at lines 153-157 fires);
`ok times dists` : the function returns the connection with the two
accumulated lists. -/
inductive ExtractResult where
  | crash : ExtractResult
  | failed : ExtractResult
  | ok : List Nat → List Nat → ExtractResult
deriving DecidableEq

/-- The `for connection in self.connections` loop (lines 119-147) followed by
the data-integrity check (lines 153-157).  `ts`/`ds` accumulate
`connections_times`/`connections_distances`.  When the loop finishes, the
check `len(times) == 0 or len(distances) == 0` yields `None` (the
`len(self.connections) == 0` disjunct cannot fire there, the caller
guarantees a non-empty box list). -/
def extractLoop : List Box → List Nat → List Nat → ExtractResult
  | [], ts, ds => if ts = [] ∨ ds = [] then .failed else .ok ts ds
  | b :: bs, ts, ds =>
    match processBox b with
    | .crash => .crash
    | .skip => extractLoop bs ts ds
    | .parsed km secs => extractLoop bs (ts ++ [secs]) (ds ++ [km])

/-- Extraction for a whole document: an empty box list raises
`IOError('Not enough connections')` (line 116), which the outer `except`
catches so that `load_idos` returns `None`; otherwise the loop runs. -/
def load_idos_extract (boxes : List Box) : ExtractResult :=
  if boxes = [] then .failed else extractLoop boxes [] []

/-- A connection as it sits in `Connections.connections` after a successful
`load_idos`: destination city, the two aligned lists, and the stored
great-circle distance `self.distance`.  The distance is carried as an exact
rational (the float computed by `set_distance`). -/
structure LoadedConn where
  to_city : City
  times : List Nat
  dists : List Nat
  distance : ℚ
deriving DecidableEq

/-- `statistics.mean` on a list of integers: the exact arithmetic mean. -/
def qmean (l : List Nat) : ℚ :=
  (l.map (Nat.cast : Nat → ℚ)).sum / (l.length : ℚ)

/-- Lines 304-307: `mean(times) / distance` in ratio mode, `mean(times)`
otherwise. -/
def ratio_absolute (ratio : Bool) (c : LoadedConn) : ℚ :=
  if ratio then qmean c.times / c.distance else qmean c.times

/-- Lines 292 and 310-311: running maximum starting from `max = 0`. -/
def maxScore (l : List ℚ) : ℚ := l.foldl max 0

/-- Lines 293 and 312-313: running minimum starting from `min = inf`; the
fold over a non-empty list equals the fold from its head (the infinity is
absorbed by the first comparison), and the value for an empty list is never
consumed by the source (the feature loop is empty then). -/
def minScore : List ℚ → ℚ
  | [] => 0
  | x :: xs => xs.foldl min x

/-- The scores of the first-`limit` window (the first loop of
`get_geojson`, lines 297-313). -/
def windowScores (conns : List LoadedConn) (limit : Nat) (ratio : Bool) : List ℚ :=
  (conns.take limit).map (ratio_absolute ratio)

/-- Line 337: `(ratio_absolute - min) / (max - min)`.  Python raises
`ZeroDivisionError` when `max - min == 0`; that outcome is `none`. -/
def colorIndex (mn mx s : ℚ) : Option ℚ :=
  if mx - mn = 0 then none else some ((s - mn) / (mx - mn))

/-- Line 341: the hue argument `0.3333 - 0.3333 * color_index` of
`Color(hsl=...)` (saturation 1 and lightness 0.5 are constant). -/
def hue (t : ℚ) : ℚ := 3333/10000 - 3333/10000 * t

/-- Lines 323-324: inside the feature loop `limit` is clamped to
`len(self.connections)` before the threshold lookups. -/
def sizeWindow (conns : List LoadedConn) (limit : Nat) : Nat :=
  min limit conns.length

/-- Line 333: threshold rank `(limit - 1) // 3` for the `"large"` tier. -/
def largeIdx (L : Nat) : Nat := (L - 1) / 3

/-- Line 330: threshold rank `((limit - 1) * 2) // 3` for the `"medium"`
tier. -/
def mediumIdx (L : Nat) : Nat := (L - 1) * 2 / 3

/-- Population of the entry of the clamped window at a threshold rank
(`self.connections[0:limit][idx].to_city.population`); within the model the
rank is always in range for a non-empty window, the default 0 is never
consumed there. -/
def thresholdPop (conns : List LoadedConn) (limit : Nat) (idx : Nat) : Nat :=
  ((conns.take (sizeWindow conns limit)).map (fun x => x.to_city.population)).getD idx 0

/-- Lines 328-334: `icon_size` starts `"small"`, becomes `"medium"` when the
population exceeds the medium threshold, and `"large"` when it exceeds the
large threshold (the later `if` wins). -/
def icon_size (conns : List LoadedConn) (limit : Nat) (c : LoadedConn) : String :=
  let L := sizeWindow conns limit
  let size0 := "small"
  let size1 :=
    if thresholdPop conns limit (mediumIdx L) < c.to_city.population then "medium" else size0
  if thresholdPop conns limit (largeIdx L) < c.to_city.population then "large" else size1

/-- One GeoJSON feature (lines 344-364); the color is carried as its hue
component, the raw HTML snapshots are dropped. -/
structure Feature where
  marker_size : String
  marker_hue : ℚ
  name : String
  connections_times : List Nat
  connections_distances : List Nat
  mean_time : ℚ
  distance : ℚ
  coordinates : List ℚ
deriving DecidableEq

/-- Body of the feature loop (lines 319-364) for one connection; `none` is
the `ZeroDivisionError` of line 337. -/
def featureOf (conns : List LoadedConn) (limit : Nat) (ratio : Bool) (c : LoadedConn) :
    Option Feature :=
  match colorIndex (minScore (windowScores conns limit ratio))
      (maxScore (windowScores conns limit ratio)) (ratio_absolute ratio c) with
  | none => none
  | some t =>
    some
      { marker_size := icon_size conns limit c
        marker_hue := hue t
        name := c.to_city.name
        connections_times := c.times
        connections_distances := c.dists
        mean_time := qmean c.times
        distance := c.distance
        coordinates := c.to_city.coordinates }

/-- `Connections.get_geojson` (lines 290-366): the feature list built over
the first-`limit` window; `none` when the normalization raises. -/
def get_geojson (conns : List LoadedConn) (limit : Nat) (ratio : Bool) :
    Option (List Feature) :=
  (conns.take limit).mapM (featureOf conns limit ratio)

/-- Input for one destination of `Connections.__init__`: the destination
city, the HTTP status of the fetch, the boxes of the fetched document, and
the great-circle distance `set_distance` would store (abstracted as an exact
rational, its value plays no role in control flow). -/
structure DestInput where
  dest : City
  status : Nat
  boxes : List Box
  gc : ℚ
deriving DecidableEq

/-- Outcome of one `load_idos` call (lines 76-164): `crash` for an uncaught
exception, `skipped` for a `None` return, `loaded` for a successful
connection. -/
inductive LoadResult where
  | crash : LoadResult
  | skipped : LoadResult
  | loaded : LoadedConn → LoadResult
deriving DecidableEq

/-- `Connection.load_idos`, in source order: the same-city early return
(lines 78-80); `set_distance` (line 82), whose `IndexError` — either the
explicit guard for two non-2-element coordinate lists or the element access
on a too-short list — is not caught anywhere and aborts the run; the fetch
status check (lines 98-105), whose `IOError` for a non-2xx/3xx response is
raised outside the `try` and also aborts the run; then extraction. -/
def load_idos (origin : City) (i : DestInput) : LoadResult :=
  if origin.name = i.dest.name then .skipped
  else if (i.dest.coordinates.length ≠ 2 ∧ origin.coordinates.length ≠ 2) ∨
      origin.coordinates.length < 2 ∨ i.dest.coordinates.length < 2 then .crash
  else if 200 ≤ i.status ∧ i.status < 400 then
    match load_idos_extract i.boxes with
    | .crash => .crash
    | .failed => .skipped
    | .ok ts ds => .loaded ⟨i.dest, ts, ds, i.gc⟩
  else .crash

/-- The loop of `Connections.__init__` (lines 277-286): `None` results are
filtered out (lines 282-283), an uncaught exception aborts the whole
construction (`none`). -/
def initLoop (origin : City) : List DestInput → Option (List LoadedConn)
  | [] => some []
  | i :: rest =>
    match load_idos origin i with
    | .crash => none
    | .skipped => initLoop origin rest
    | .loaded lc => (initLoop origin rest).map (fun cs => lc :: cs)

/-- `Connections.__init__` over `cities[0:limit]`. -/
def connectionsInit (origin : City) (inputs : List DestInput) (limit : Nat) :
    Option (List LoadedConn) :=
  initLoop origin (inputs.take limit)

/-- `math.radians`. -/
noncomputable def deg2rad (d : ℝ) : ℝ := d * (Real.pi / 180)

/-- `math.atan2 y x`, i.e. the argument of the complex number `x + y i`. -/
noncomputable def atan2 (y x : ℝ) : ℝ := Complex.arg (x + y * Complex.I)

/-- The haversine intermediate `a` of lines 182-190, from degree
coordinates. -/
noncomputable def haversine_a (lon1 lat1 lon2 lat2 : ℝ) : ℝ :=
  Real.sin ((deg2rad lat2 - deg2rad lat1) / 2) ^ 2 +
    Real.cos (deg2rad lat1) * Real.cos (deg2rad lat2) *
      Real.sin ((deg2rad lon2 - deg2rad lon1) / 2) ^ 2

/-- Lines 180-193: `R * c` with `R = 6373` and
`c = 2 * atan2(sqrt a, sqrt (1 - a))`. -/
noncomputable def haversineDist (lon1 lat1 lon2 lat2 : ℝ) : ℝ :=
  6373 * (2 * atan2 (Real.sqrt (haversine_a lon1 lat1 lon2 lat2))
    (Real.sqrt (1 - haversine_a lon1 lat1 lon2 lat2)))

/-- Outcome of `Connection.set_distance` (lines 169-195):
`precondError` is the explicit `raise IndexError('City coordinates are not
set')` of line 175; `accessError` is the `IndexError` raised by
`coordinates[1]`/`coordinates[0]` on a too-short list once the guard has
passed; `computed d` stores `self.distance = d`. -/
inductive SetDistanceResult where
  | precondError : SetDistanceResult
  | accessError : SetDistanceResult
  | computed : ℝ → SetDistanceResult

/-- `Connection.set_distance` on the two coordinate lists
`[longitude, latitude]`.  The guard of line 174 fires only when *both*
lists fail the length check (`and`); otherwise the element accesses of
lines 182-185 read indices 1 and 0 of each list. -/
noncomputable def set_distance (fromC toC : List ℝ) : SetDistanceResult :=
  if toC.length ≠ 2 ∧ fromC.length ≠ 2 then .precondError
  else if fromC.length < 2 ∨ toC.length < 2 then .accessError
  else .computed (haversineDist (fromC.getD 0 0) (fromC.getD 1 0) (toC.getD 0 0) (toC.getD 1 0))

/-! ### Helper lemmas -/

lemma foldl_min_le_init (l : List ℚ) : ∀ a : ℚ, l.foldl min a ≤ a := by
  induction l with
  | nil => intro a; simp
  | cons b l ih =>
    intro a
    calc (b :: l).foldl min a = l.foldl min (min a b) := rfl
    _ ≤ min a b := ih _
    _ ≤ a := min_le_left _ _

lemma foldl_min_le_mem (l : List ℚ) (x : ℚ) (hx : x ∈ l) : ∀ a : ℚ, l.foldl min a ≤ x := by
  induction l with
  | nil => cases hx
  | cons b l ih =>
    intro a
    rcases List.mem_cons.mp hx with h | h
    · subst h
      calc (x :: l).foldl min a = l.foldl min (min a x) := rfl
      _ ≤ min a x := foldl_min_le_init _ _
      _ ≤ x := min_le_right _ _
    · exact ih h _

lemma minScore_le_mem (l : List ℚ) (x : ℚ) (hx : x ∈ l) : minScore l ≤ x := by
  cases l with
  | nil => cases hx
  | cons b l =>
    rcases List.mem_cons.mp hx with h | h
    · subst h; exact foldl_min_le_init l x
    · exact foldl_min_le_mem l x h b

lemma le_foldl_max_init (l : List ℚ) : ∀ a : ℚ, a ≤ l.foldl max a := by
  induction l with
  | nil => intro a; simp
  | cons b l ih =>
    intro a
    calc a ≤ max a b := le_max_left _ _
    _ ≤ l.foldl max (max a b) := ih _
    _ = (b :: l).foldl max a := rfl

lemma mem_le_foldl_max (l : List ℚ) (x : ℚ) (hx : x ∈ l) : ∀ a : ℚ, x ≤ l.foldl max a := by
  induction l with
  | nil => cases hx
  | cons b l ih =>
    intro a
    rcases List.mem_cons.mp hx with h | h
    · subst h
      calc x ≤ max a x := le_max_right _ _
      _ ≤ l.foldl max (max a x) := le_foldl_max_init _ _
      _ = (x :: l).foldl max a := rfl
    · exact ih h _

lemma mem_le_maxScore (l : List ℚ) (x : ℚ) (hx : x ∈ l) : x ≤ maxScore l :=
  mem_le_foldl_max l x hx 0

lemma extractLoop_ok_lengths :
    ∀ (bs : List Box) (ts0 ds0 ts ds : List Nat),
      extractLoop bs ts0 ds0 = .ok ts ds → ts0.length = ds0.length →
      ts.length = ds.length := by
  intro bs
  induction bs with
  | nil =>
    intro ts0 ds0 ts ds h h0
    unfold extractLoop at h
    by_cases he : ts0 = [] ∨ ds0 = []
    · simp [he] at h
    · rw [if_neg he] at h
      injection h with h1 h2
      subst h1; subst h2; exact h0
  | cons b bs ih =>
    intro ts0 ds0 ts ds h h0
    unfold extractLoop at h
    cases hb : processBox b with
    | crash => rw [hb] at h; exact absurd h (by simp)
    | skip => rw [hb] at h; exact ih _ _ _ _ h h0
    | parsed km secs => rw [hb] at h; exact ih _ _ _ _ h (by simp [h0])

lemma extractLoop_all_skip (bs : List Box) (hs : ∀ b ∈ bs, processBox b = .skip) :
    ∀ ts ds : List Nat, extractLoop bs ts ds = extractLoop [] ts ds := by
  induction bs with
  | nil => intro ts ds; rfl
  | cons b bs ih =>
    intro ts ds
    have hb : processBox b = .skip := hs b (List.mem_cons_self b bs)
    calc extractLoop (b :: bs) ts ds = extractLoop bs ts ds := by
          simp [extractLoop, hb]
    _ = extractLoop [] ts ds := ih (fun x hx => hs x (List.mem_cons_of_mem b hx)) ts ds

/-! ### Claims -/

/-- C1: for every connection with a non-empty trip batch, the score set by
`get_geojson` (line 304-307) is the arithmetic mean of the trip durations in
absolute mode, and that mean divided by the stored great-circle distance in
ratio mode; in particular for the duration batch `[3600, 1800]` absolute
mode gives 2700 and ratio mode with great-circle distance 50 gives 54. -/
theorem score_is_mean_of_durations (c : LoadedConn) (h : c.times ≠ []) :
    ratio_absolute false c = (c.times.map (Nat.cast : Nat → ℚ)).sum / (c.times.length : ℚ) ∧
    ratio_absolute true c =
      (c.times.map (Nat.cast : Nat → ℚ)).sum / (c.times.length : ℚ) / c.distance ∧
    ratio_absolute false ⟨⟨"A", "B", 1, []⟩, [3600, 1800], [100, 100], 50⟩ = 2700 ∧
    ratio_absolute true ⟨⟨"A", "B", 1, []⟩, [3600, 1800], [100, 100], 50⟩ = 54 :=
  ⟨by simp [ratio_absolute, qmean], by simp [ratio_absolute, qmean],
    by norm_num [ratio_absolute, qmean], by norm_num [ratio_absolute, qmean]⟩

/-- C1 witness: the scenario batch is non-empty and evaluates to score
2700 in absolute mode. -/
theorem score_is_mean_of_durations_witness :
    (([3600, 1800] : List Nat) ≠ []) ∧
    ratio_absolute false ⟨⟨"A", "B", 1, []⟩, [3600, 1800], [100, 100], 50⟩ = 2700 :=
  ⟨by decide,
    (score_is_mean_of_durations ⟨⟨"A", "B", 1, []⟩, [3600, 1800], [100, 100], 50⟩
      (by decide)).2.2.1⟩

/-- C2 (code bug): with a single loaded connection the window's maximum and
minimum scores coincide, and `get_geojson` divides by `max - min = 0` at
line 337 — a Python `ZeroDivisionError` — instead of assigning `t = 0`;
the model returns `none` (no feature collection is produced). -/
theorem equal_scores_normalization_error :
    get_geojson [⟨⟨"Brno", "jm", 380000, [1, 2]⟩, [100], [10], 1⟩] 1 false = none := by
  norm_num [get_geojson, featureOf, colorIndex, windowScores, minScore, maxScore,
    ratio_absolute, qmean, List.mapM, List.mapM.loop]

/-- C4 (code bug): in a document with two matched boxes whose second box has
an unparseable distance field, the failed distance regex makes
`re.search(...).group(1)` raise `AttributeError`, which the
`except IndexError` handler of line 144 does not catch: the whole run
crashes instead of skipping the box and returning the one good trip
record. -/
theorem unparseable_distance_aborts_run :
    load_idos_extract [⟨some ["1 hod", "100 km"]⟩, ⟨some ["1 hod", "no distance"]⟩] =
      ExtractResult.crash := by
  decide

/-- C5 counterexample: a box whose duration text contains neither an hour
nor a minute component does not abort the document; both components default
to 0 and extraction returns one trip record of duration 0. -/
theorem missing_duration_components_yield_record :
    load_idos_extract [⟨some ["fast", "100 km"]⟩] = ExtractResult.ok [0] [100] := by
  decide

/-- C5 (amended): duration parsing never fails — a duration text in which
neither the hour regex nor the minute regex matches contributes 0 seconds,
the box still yields a trip record, and a single-box document extracts to
one record of duration 0 rather than aborting. -/
theorem duration_components_default_to_zero (t d : String) (rest : List String) (n : Nat)
    (hh : reSearchStr (" hod") t = none) (hm : reSearchStr (" min") t = none)
    (hk : reSearchStr (" km") d = some n) :
    processBox ⟨some (t :: d :: rest)⟩ = .parsed n 0 ∧
    load_idos_extract [⟨some [t, d]⟩] = .ok [0] [n] := by
  have hp : processBox ⟨some (t :: d :: rest)⟩ = .parsed n 0 := by
    simp [processBox, hk, hh, hm]
  have hp2 : processBox ⟨some [t, d]⟩ = .parsed n 0 := by
    simp [processBox, hk, hh, hm]
  refine ⟨hp, ?_⟩
  simp [load_idos_extract, extractLoop, hp2]

/-- C5 witness: the duration text `"fast"` matches neither component regex
while `"100 km"` parses as 100, and the document yields the single record
`(duration 0, distance 100)`. -/
theorem duration_components_default_to_zero_witness :
    reSearchStr (" hod") "fast" = none ∧ reSearchStr (" min") "fast" = none ∧
    reSearchStr (" km") "100 km" = some 100 ∧
    processBox ⟨some ["fast", "100 km"]⟩ = BoxResult.parsed 100 0 :=
  ⟨by decide, by decide, by decide,
    (duration_components_default_to_zero "fast" "100 km" [] 100 (by decide) (by decide)
      (by decide)).1⟩

/-- C10: whenever extraction succeeds (`load_idos` returns a connection),
the accumulated duration and distance lists have equal length — every box
either appends to both lists or, when skipped, to neither. -/
theorem times_distances_aligned (boxes : List Box) (ts ds : List Nat)
    (h : load_idos_extract boxes = .ok ts ds) : ts.length = ds.length := by
  unfold load_idos_extract at h
  by_cases hb : boxes = []
  · rw [if_pos hb] at h; exact absurd h (by simp)
  · rw [if_neg hb] at h
    exact extractLoop_ok_lengths boxes [] [] ts ds h rfl

/-- C10 witness: a one-box document extracts to aligned singleton lists. -/
theorem times_distances_aligned_witness :
    ([3600] : List Nat).length = ([100] : List Nat).length :=
  times_distances_aligned [⟨some ["1 hod", "100 km"]⟩] [3600] [100] (by decide)

/-- C3 counterexample: a 3-element coordinate list is not a 2-element pair,
yet with a 2-element list on the other side the guard of line 174 (an `and`
of the two length checks) passes, and `set_distance` computes a distance
from the first two elements instead of failing with the precondition
error. -/
theorem set_distance_three_element_counterexample :
    set_distance [0, 0] [0, 0, 0] = SetDistanceResult.computed (haversineDist 0 0 0 0) := by
  simp [set_distance]

/-- C3 (amended): `set_distance` raises its precondition `IndexError`
exactly when *both* coordinate lists are non-2-element; when the guard
passes it fails with the element-access `IndexError` exactly when one list
has fewer than two elements, and computes a great-circle distance (from the
first two elements of each list) exactly when at least one list has exactly
two elements and both have at least two. -/
theorem set_distance_failure_characterization (fromC toC : List ℝ) :
    (set_distance fromC toC = .precondError ↔ (toC.length ≠ 2 ∧ fromC.length ≠ 2)) ∧
    (set_distance fromC toC = .accessError ↔
      (¬(toC.length ≠ 2 ∧ fromC.length ≠ 2) ∧ (fromC.length < 2 ∨ toC.length < 2))) ∧
    ((∃ d, set_distance fromC toC = .computed d) ↔
      (¬(toC.length ≠ 2 ∧ fromC.length ≠ 2) ∧ 2 ≤ fromC.length ∧ 2 ≤ toC.length)) := by
  by_cases h1 : toC.length ≠ 2 ∧ fromC.length ≠ 2
  · simp only [set_distance, if_pos h1]
    refine ⟨by simp [h1], by simp [h1], by simp [h1]⟩
  · by_cases h2 : fromC.length < 2 ∨ toC.length < 2
    · simp only [set_distance, if_neg h1, if_pos h2]
      refine ⟨by simp [h1], by simp [h1, h2], ?_⟩
      constructor
      · intro ⟨d, hd⟩; exact absurd hd (by simp)
      · intro ⟨_, ha, hb⟩; omega
    · simp only [set_distance, if_neg h1, if_neg h2]
      refine ⟨by simp; omega, by simp [h2], ?_⟩
      constructor
      · intro _; exact ⟨h1, by omega, by omega⟩
      · intro _; exact ⟨_, rfl⟩

lemma sin_half_sub_sq (x y : ℝ) :
    Real.sin ((x - y) / 2) ^ 2 = Real.sin ((y - x) / 2) ^ 2 := by
  have h : (x - y) / 2 = -((y - x) / 2) := by ring
  rw [h, Real.sin_neg]
  ring

lemma haversine_a_symm (lon1 lat1 lon2 lat2 : ℝ) :
    haversine_a lon1 lat1 lon2 lat2 = haversine_a lon2 lat2 lon1 lat1 := by
  unfold haversine_a
  rw [sin_half_sub_sq (deg2rad lat2) (deg2rad lat1),
    sin_half_sub_sq (deg2rad lon2) (deg2rad lon1)]
  ring

lemma haversine_a_self (lon lat : ℝ) : haversine_a lon lat lon lat = 0 := by
  unfold haversine_a
  simp

lemma atan2_zero_one : atan2 0 1 = 0 := by
  unfold atan2
  have h : ((1 : ℝ) : ℂ) + ((0 : ℝ) : ℂ) * Complex.I = 1 := by push_cast; ring
  rw [h, Complex.arg_one]

/-- C9: the haversine great-circle distance with Earth radius 6373 km is
symmetric — exactly, hence within the 1e-6 km tolerance — and the distance
from a point to itself is 0; on two 2-element coordinate pairs
`set_distance` computes exactly this value. -/
theorem haversine_symm_and_self_zero (lonA latA lonB latB : ℝ) :
    haversineDist lonA latA lonB latB = haversineDist lonB latB lonA latA ∧
    |haversineDist lonA latA lonB latB - haversineDist lonB latB lonA latA| ≤ 1 / 1000000 ∧
    haversineDist lonA latA lonA latA = 0 ∧
    set_distance [lonA, latA] [lonB, latB] =
      SetDistanceResult.computed (haversineDist lonA latA lonB latB) := by
  have hsym : haversineDist lonA latA lonB latB = haversineDist lonB latB lonA latA := by
    unfold haversineDist
    rw [haversine_a_symm]
  refine ⟨hsym, ?_, ?_, ?_⟩
  · rw [hsym, sub_self, abs_zero]
    norm_num
  · unfold haversineDist
    rw [haversine_a_self]
    simp [atan2_zero_one]
  · simp [set_distance]

/-- C6: when the window's extreme scores differ (otherwise line 337 raises,
see the C2 result), every normalized position
`t = (score - min) / (max - min)` lies in [0, 1]; the hue is
`0.3333 - 0.3333 * t = 0.3333 * (1 - t)`, an entry whose score equals the
window minimum gets hue 0.3333 and an entry whose score equals the window
maximum gets hue 0. -/
theorem normalized_color_bounds (conns : List LoadedConn) (limit : Nat) (ratio : Bool)
    (c : LoadedConn) (hc : c ∈ conns.take limit)
    (hne : minScore (windowScores conns limit ratio) ≠ maxScore (windowScores conns limit ratio)) :
    ∃ t : ℚ,
      colorIndex (minScore (windowScores conns limit ratio))
          (maxScore (windowScores conns limit ratio)) (ratio_absolute ratio c) = some t ∧
      0 ≤ t ∧ t ≤ 1 ∧
      hue t = 3333 / 10000 * (1 - t) ∧
      (ratio_absolute ratio c = minScore (windowScores conns limit ratio) → hue t = 3333 / 10000) ∧
      (ratio_absolute ratio c = maxScore (windowScores conns limit ratio) → hue t = 0) := by
  set S := windowScores conns limit ratio with hS
  set s := ratio_absolute ratio c with hs
  have hmem : s ∈ S := by
    rw [hS, hs]
    exact List.mem_map_of_mem _ hc
  have hmin : minScore S ≤ s := minScore_le_mem S s hmem
  have hmax : s ≤ maxScore S := mem_le_maxScore S s hmem
  have hlt : minScore S < maxScore S := lt_of_le_of_ne (le_trans hmin hmax) hne
  have hpos : 0 < maxScore S - minScore S := sub_pos.mpr hlt
  refine ⟨(s - minScore S) / (maxScore S - minScore S), ?_, ?_, ?_, ?_, ?_, ?_⟩
  · unfold colorIndex
    rw [if_neg (ne_of_gt hpos)]
  · exact div_nonneg (sub_nonneg.mpr hmin) hpos.le
  · rw [div_le_one hpos]
    exact sub_le_sub_right hmax _
  · unfold hue; ring
  · intro h
    rw [h, sub_self, zero_div]
    simp [hue]
  · intro h
    rw [h]
    unfold hue
    rw [div_self (ne_of_gt hpos)]
    ring

/-- C6 witness: a two-connection window with scores 100 and 200; the
first connection sits at the minimum, so its normalized position is 0. -/
theorem normalized_color_bounds_witness :
    ((⟨⟨"A", "a", 5, []⟩, [100], [1], 1⟩ : LoadedConn) ∈
      ([⟨⟨"A", "a", 5, []⟩, [100], [1], 1⟩, ⟨⟨"B", "b", 4, []⟩, [200], [1], 1⟩] :
        List LoadedConn).take 2) ∧
    (minScore (windowScores [⟨⟨"A", "a", 5, []⟩, [100], [1], 1⟩,
        ⟨⟨"B", "b", 4, []⟩, [200], [1], 1⟩] 2 false) ≠
      maxScore (windowScores [⟨⟨"A", "a", 5, []⟩, [100], [1], 1⟩,
        ⟨⟨"B", "b", 4, []⟩, [200], [1], 1⟩] 2 false)) ∧
    (∃ t : ℚ,
      colorIndex (minScore (windowScores [⟨⟨"A", "a", 5, []⟩, [100], [1], 1⟩,
            ⟨⟨"B", "b", 4, []⟩, [200], [1], 1⟩] 2 false))
          (maxScore (windowScores [⟨⟨"A", "a", 5, []⟩, [100], [1], 1⟩,
            ⟨⟨"B", "b", 4, []⟩, [200], [1], 1⟩] 2 false))
          (ratio_absolute false ⟨⟨"A", "a", 5, []⟩, [100], [1], 1⟩) = some t ∧
      0 ≤ t ∧ t ≤ 1 ∧
      hue t = 3333 / 10000 * (1 - t) ∧
      (ratio_absolute false ⟨⟨"A", "a", 5, []⟩, [100], [1], 1⟩ =
        minScore (windowScores [⟨⟨"A", "a", 5, []⟩, [100], [1], 1⟩,
          ⟨⟨"B", "b", 4, []⟩, [200], [1], 1⟩] 2 false) → hue t = 3333 / 10000) ∧
      (ratio_absolute false ⟨⟨"A", "a", 5, []⟩, [100], [1], 1⟩ =
        maxScore (windowScores [⟨⟨"A", "a", 5, []⟩, [100], [1], 1⟩,
          ⟨⟨"B", "b", 4, []⟩, [200], [1], 1⟩] 2 false) → hue t = 0)) :=
  ⟨by simp, by norm_num [windowScores, minScore, maxScore, ratio_absolute, qmean],
    normalized_color_bounds _ 2 false _ (by simp)
      (by norm_num [windowScores, minScore, maxScore, ratio_absolute, qmean])⟩

/-- C7: within the clamped first-`L` window the label is `"large"` exactly
when the population exceeds the population at rank `(L - 1) / 3`,
`"medium"` exactly when it exceeds the population at rank
`(L - 1) * 2 / 3` without being large, `"small"` otherwise; for `L = 9`
the threshold ranks are 2 and 5. -/
theorem icon_size_tiers (conns : List LoadedConn) (limit : Nat) (c : LoadedConn) :
    (icon_size conns limit c = "large" ↔
      thresholdPop conns limit (largeIdx (sizeWindow conns limit)) < c.to_city.population) ∧
    (icon_size conns limit c = "medium" ↔
      (thresholdPop conns limit (mediumIdx (sizeWindow conns limit)) < c.to_city.population ∧
        ¬ thresholdPop conns limit (largeIdx (sizeWindow conns limit)) < c.to_city.population)) ∧
    (icon_size conns limit c = "small" ↔
      (¬ thresholdPop conns limit (mediumIdx (sizeWindow conns limit)) < c.to_city.population ∧
        ¬ thresholdPop conns limit (largeIdx (sizeWindow conns limit)) < c.to_city.population)) ∧
    (sizeWindow conns limit = 9 →
      largeIdx (sizeWindow conns limit) = 2 ∧ mediumIdx (sizeWindow conns limit) = 5) := by
  refine ⟨?_, ?_, ?_, ?_⟩
  · by_cases hL :
        thresholdPop conns limit (largeIdx (sizeWindow conns limit)) < c.to_city.population <;>
      by_cases hM :
        thresholdPop conns limit (mediumIdx (sizeWindow conns limit)) < c.to_city.population <;>
      simp [icon_size, hL, hM]
  · by_cases hL :
        thresholdPop conns limit (largeIdx (sizeWindow conns limit)) < c.to_city.population <;>
      by_cases hM :
        thresholdPop conns limit (mediumIdx (sizeWindow conns limit)) < c.to_city.population <;>
      simp [icon_size, hL, hM]
  · by_cases hL :
        thresholdPop conns limit (largeIdx (sizeWindow conns limit)) < c.to_city.population <;>
      by_cases hM :
        thresholdPop conns limit (mediumIdx (sizeWindow conns limit)) < c.to_city.population <;>
      simp [icon_size, hL, hM]
  · intro h
    rw [h]
    constructor <;> rfl

/-- Concrete connection used by the C7 witness window. -/
def tierConn : LoadedConn := ⟨⟨"P", "", 5, []⟩, [60], [1], 1⟩

/-- C7 witness: a window of nine destinations; the threshold ranks are 2
and 5, and an entry whose population does not exceed either threshold is
labelled `"small"`. -/
theorem icon_size_tiers_witness :
    largeIdx (sizeWindow (List.replicate 9 tierConn) 9) = 2 ∧
    mediumIdx (sizeWindow (List.replicate 9 tierConn) 9) = 5 ∧
    icon_size (List.replicate 9 tierConn) 9 tierConn = "small" :=
  ⟨((icon_size_tiers (List.replicate 9 tierConn) 9 tierConn).2.2.2 (by rfl)).1,
    ((icon_size_tiers (List.replicate 9 tierConn) 9 tierConn).2.2.2 (by rfl)).2,
    (icon_size_tiers (List.replicate 9 tierConn) 9 tierConn).2.2.1.mpr
      ⟨by decide, by decide⟩⟩

/-- C8: a destination that is unusable — same name as the origin, or a
document with no matched boxes, or a trip batch left empty because every
box was skipped — makes `load_idos` return `None`; the `__init__` loop does
not append it, and the feature collection computed from the resulting
connection list is the same as if the destination had not been fetched at
all. -/
theorem unusable_destination_skipped (origin : City) (i : DestInput) (pre post : List DestInput)
    (h : origin.name = i.dest.name ∨
      (origin.coordinates.length = 2 ∧ i.dest.coordinates.length = 2 ∧
        200 ≤ i.status ∧ i.status < 400 ∧
        (i.boxes = [] ∨ ∀ b ∈ i.boxes, processBox b = .skip))) :
    load_idos origin i = .skipped ∧
    initLoop origin (pre ++ i :: post) = initLoop origin (pre ++ post) ∧
    ∀ (L : Nat) (ratio : Bool),
      (initLoop origin (pre ++ i :: post)).map (fun cs => get_geojson cs L ratio) =
        (initLoop origin (pre ++ post)).map (fun cs => get_geojson cs L ratio) := by
  have hskip : load_idos origin i = .skipped := by
    by_cases hn : origin.name = i.dest.name
    · simp [load_idos, hn]
    · rcases h with h | ⟨h2, h3, h4, h5, h6⟩
      · exact absurd h hn
      · have hcrash : ¬ ((i.dest.coordinates.length ≠ 2 ∧ origin.coordinates.length ≠ 2) ∨
            origin.coordinates.length < 2 ∨ i.dest.coordinates.length < 2) := by
          omega
        have hext : load_idos_extract i.boxes = .failed := by
          rcases h6 with h6 | h6
          · simp [load_idos_extract, h6]
          · unfold load_idos_extract
            by_cases hb : i.boxes = []
            · rw [if_pos hb]
            · rw [if_neg hb, extractLoop_all_skip i.boxes h6]
              rfl
        simp [load_idos, hn, hcrash, hext, h4, h5]
  have hinit : initLoop origin (pre ++ i :: post) = initLoop origin (pre ++ post) := by
    induction pre with
    | nil =>
      simp only [List.nil_append]
      simp [initLoop, hskip]
    | cons p pre ih =>
      simp only [List.cons_append]
      cases hp : load_idos origin p <;> simp [initLoop, hp, ih]
  exact ⟨hskip, hinit, fun L ratio => by rw [hinit]⟩

/-- C8 witness: a destination with the same name as the origin is skipped
and contributes nothing to the collection or the feature list. -/
theorem unusable_destination_skipped_witness :
    load_idos ⟨"Praha", "hl", 1300000, [14, 50]⟩
      ⟨⟨"Praha", "vy", 500, [15, 49]⟩, 200, [], 0⟩ = .skipped ∧
    initLoop ⟨"Praha", "hl", 1300000, [14, 50]⟩
        ([] ++ ⟨⟨"Praha", "vy", 500, [15, 49]⟩, 200, [], 0⟩ :: []) =
      initLoop ⟨"Praha", "hl", 1300000, [14, 50]⟩ ([] ++ []) ∧
    ∀ (L : Nat) (ratio : Bool),
      (initLoop ⟨"Praha", "hl", 1300000, [14, 50]⟩
          ([] ++ ⟨⟨"Praha", "vy", 500, [15, 49]⟩, 200, [], 0⟩ :: [])).map
          (fun cs => get_geojson cs L ratio) =
        (initLoop ⟨"Praha", "hl", 1300000, [14, 50]⟩ ([] ++ [])).map
          (fun cs => get_geojson cs L ratio) :=
  unusable_destination_skipped ⟨"Praha", "hl", 1300000, [14, 50]⟩
    ⟨⟨"Praha", "vy", 500, [15, 49]⟩, 200, [], 0⟩ [] [] (Or.inl rfl)
